import Mathlib

/-!
# Verification of the foodscan-server scan-record service

A shallow embedding of the scan-record service of this repository
(`foodscan-server/src/routes/scan.ts`, `routes/user.ts`,
`models/Scan.ts`, `middleware/auth.ts` and the server entry file with the
global error-handling middleware), together with theorems settling the
specification's claims about it.

Modelling conventions:
* MongoDB documents become Lean structures; the two stores (scan records
  and uploaded blob files) become lists inside a `ServerState`.
* `Date` values become `Nat` timestamps; JS numbers that matter for the
  claims become `Int`/`Nat`; `Math.random()` draws become `ℚ` values in
  `[0,1)` passed in explicitly.
* Fallible filesystem / database steps take explicit failure flags, and
  handlers additionally return the list of completed mutation effects so
  that ordering claims can be stated.
* JSON responses become a `Resp` structure (HTTP status, `success` flag,
  `message`), plus the payload relevant to each handler.
-/

/-- One HTTP JSON response envelope: status code, the `success` flag and the
optional `message` field that the handlers put in the body. -/
structure Resp where
  status : Nat
  success : Bool
  message : Option String
deriving Repr, DecidableEq

/-- `analysisMetadata` subdocument of a scan (from `models/Scan.ts`). -/
structure AnalysisMetadata where
  processingTime : Nat
  modelVersion : String
  confidence : ℚ
deriving Repr, DecidableEq

/-- One scan record document (interface `IScan` in `models/Scan.ts`).
`id` models the Mongo `_id`, `createdAt` the `timestamps: true` field the
history sort uses, `filePath` the generated blob file name. -/
structure Scan where
  id : Nat
  userId : Nat
  fileName : String
  fileType : String
  filePath : String
  fileSize : Nat
  analysisDate : Nat
  qualityScore : Int
  freshness : String
  nutritionalValue : String
  recommendations : List String
  warnings : List String
  analysisMetadata : AnalysisMetadata
  createdAt : Nat
deriving Repr, DecidableEq

/-- A user account document (`models/User.ts`), with the stored secret hash.
`comparePassword` (a bcrypt comparison in the source) is modelled as
equality with the stored hash value. -/
structure User where
  id : Nat
  name : String
  email : String
  password : String
deriving Repr, DecidableEq

/-- The server's persistent state: the user collection, the scan
collection, and the names of the files in the uploads directory. -/
structure ServerState where
  users : List User
  scans : List Scan
  blobs : List String
deriving Repr, DecidableEq

/-- `Scan.findOne({ _id: scanId, userId: user._id })` — the ownership-scoped
point lookup both `GET /:scanId` and `DELETE /:scanId` start with. -/
def findOneScan (st : ServerState) (uid sid : Nat) : Option Scan :=
  st.scans.find? (fun s => s.id == sid && s.userId == uid)

/-- The virtual `fileUrl` of `models/Scan.ts`: the derived access path
computed from the stored blob file name. -/
def fileUrl (s : Scan) : String :=
  "/uploads/" ++ s.filePath

/-- Serialization of a scan document fetched with `.select('-filePath')`
and rendered with `toJSON` (virtuals on): every schema field except
`filePath`, plus the `fileUrl` virtual.  Because `filePath` was excluded
by the projection, `this.filePath` is `undefined` inside the virtual's
getter, so the template literal renders the string `"/uploads/undefined"`. -/
def scanViewFields (s : Scan) : List (String × String) :=
  [("_id", toString s.id),
   ("userId", toString s.userId),
   ("fileName", s.fileName),
   ("fileType", s.fileType),
   ("fileSize", toString s.fileSize),
   ("analysisDate", toString s.analysisDate),
   ("qualityScore", toString s.qualityScore),
   ("freshness", s.freshness),
   ("nutritionalValue", s.nutritionalValue),
   ("recommendations", String.intercalate ", " s.recommendations),
   ("warnings", String.intercalate ", " s.warnings),
   ("analysisMetadata", toString s.analysisMetadata.processingTime ++ "/" ++
      s.analysisMetadata.modelVersion ++ "/" ++ toString s.analysisMetadata.confidence),
   ("createdAt", toString s.createdAt),
   ("fileUrl", "/uploads/undefined")]

/-- Serialization of the explicit response object built by
`POST /analyze` (`routes/scan.ts`, the `res.json({... data: {...}})` call):
exactly the fields the handler enumerates, in order. -/
def analyzeRespFields (s : Scan) : List (String × String) :=
  [("id", toString s.id),
   ("fileName", s.fileName),
   ("fileType", s.fileType),
   ("fileUrl", fileUrl s),
   ("analysisDate", toString s.analysisDate),
   ("qualityScore", toString s.qualityScore),
   ("freshness", s.freshness),
   ("nutritionalValue", s.nutritionalValue),
   ("recommendations", String.intercalate ", " s.recommendations),
   ("warnings", String.intercalate ", " s.warnings),
   ("analysisMetadata", toString s.analysisMetadata.processingTime ++ "/" ++
      s.analysisMetadata.modelVersion ++ "/" ++ toString s.analysisMetadata.confidence)]

/-- `GET /:scanId` (`routes/scan.ts`): ownership-scoped `findOne`, `404`
with `"Scan not found"` when it misses, otherwise the document minus
`filePath`. -/
def getByIdHandler (st : ServerState) (uid sid : Nat) :
    Resp × Option (List (String × String)) :=
  match findOneScan st uid sid with
  | none => (⟨404, false, some "Scan not found"⟩, none)
  | some s => (⟨200, true, none⟩, some (scanViewFields s))

/-- A completed mutation effect of the delete handler, used to state
ordering properties of the record/blob deletion sequence. -/
inductive Eff where
  | unlinkBlob (name : String)
  | deleteRecord (id : Nat)
deriving Repr, DecidableEq

/-- `DELETE /:scanId` (`routes/scan.ts`): ownership-scoped `findOne`
(miss ⇒ `404 "Scan not found"`), then `fs.existsSync`-guarded
`fs.unlinkSync` of the blob file, then `Scan.findByIdAndDelete`.
`unlinkFails` (resp. `dbDeleteFails`) injects a throw from `unlinkSync`
(resp. from `findByIdAndDelete`); a throw lands in the `catch` block which
answers `500 "Internal server error while deleting scan"`.  The third
component is the list of completed mutations in the order they happened. -/
def deleteScanHandler (st : ServerState) (uid sid : Nat)
    (unlinkFails dbDeleteFails : Bool) :
    Resp × ServerState × List Eff :=
  match findOneScan st uid sid with
  | none => (⟨404, false, some "Scan not found"⟩, st, [])
  | some scan =>
    if scan.filePath ∈ st.blobs then
      if unlinkFails then
        (⟨500, false, some "Internal server error while deleting scan"⟩, st, [])
      else
        let st1 : ServerState :=
          { st with blobs := st.blobs.filter (fun b => b != scan.filePath) }
        if dbDeleteFails then
          (⟨500, false, some "Internal server error while deleting scan"⟩,
            st1, [Eff.unlinkBlob scan.filePath])
        else
          (⟨200, true, some "Scan deleted successfully"⟩,
            { st1 with scans := st1.scans.filter (fun s => s.id != scan.id) },
            [Eff.unlinkBlob scan.filePath, Eff.deleteRecord scan.id])
    else
      if dbDeleteFails then
        (⟨500, false, some "Internal server error while deleting scan"⟩, st, [])
      else
        (⟨200, true, some "Scan deleted successfully"⟩,
          { st with scans := st.scans.filter (fun s => s.id != scan.id) },
          [Eff.deleteRecord scan.id])

/-- `DELETE /account` (`routes/user.ts`): requires the `password` body
field, re-verifies it against the stored hash (`comparePassword`), then
`Scan.deleteMany({ userId })` and `User.findByIdAndDelete(userId)`.
The source contains no filesystem call: the uploads directory is left
untouched. -/
def deleteAccountHandler (st : ServerState) (uid : Nat)
    (password : Option String) : Resp × ServerState :=
  match password with
  | none => (⟨400, false, some "Password is required to delete account"⟩, st)
  | some pw =>
    match st.users.find? (fun u => u.id == uid) with
    | none => (⟨404, false, some "User not found"⟩, st)
    | some user =>
      if user.password == pw then
        (⟨200, true, some "Account deleted successfully"⟩,
          { st with
              scans := st.scans.filter (fun s => s.userId != uid),
              users := st.users.filter (fun u => u.id != uid) })
      else
        (⟨401, false, some "Invalid password"⟩, st)

/-- The optional query parameters of `GET /history` after `parseInt`
(`page`/`limit` are handled separately in the handler; here are the three
filter parameters). -/
structure HistoryQuery where
  freshness : Option String
  minScore : Option Int
  maxScore : Option Int
deriving Repr, DecidableEq

/-- The `filters.qualityScore` sub-object: optional `$gte` and `$lte`
bounds. -/
structure ScoreCond where
  gte : Option Int
  lte : Option Int
deriving Repr, DecidableEq

/-- The Mongo filter object `GET /history` builds: `userId` always, plus
the optional `freshness` equality and `qualityScore` range conditions. -/
structure MongoFilter where
  userId : Nat
  freshness : Option String
  qualityScore : Option ScoreCond
deriving Repr, DecidableEq

/-- Filter construction of `GET /history` (`routes/scan.ts`): start from
`{ userId }`; if `freshness` is given add an equality condition; if
`minScore` is given set `qualityScore = { $gte: minScore }`; if `maxScore`
is given set `qualityScore = { ...qualityScore, $lte: maxScore }` — the
spread keeps a previously written `$gte`, and yields `{ $lte }` alone when
no `minScore` was given. -/
def buildFilters (uid : Nat) (q : HistoryQuery) : MongoFilter :=
  let f : MongoFilter := { userId := uid, freshness := none, qualityScore := none }
  let f := match q.freshness with
    | some x => { f with freshness := some x }
    | none => f
  let f := match q.minScore with
    | some m => { f with qualityScore := some ⟨some m, none⟩ }
    | none => f
  match q.maxScore with
  | some mx =>
      let keptGte : Option Int :=
        match f.qualityScore with | some c => c.gte | none => none
      { f with qualityScore := some { gte := keptGte, lte := some mx } }
  | none => f

/-- Whether a score satisfies a `qualityScore` condition object
(`$gte`/`$lte` both inclusive, as in Mongo). -/
def scoreCondHolds (c : ScoreCond) (score : Int) : Bool :=
  (match c.gte with | some m => decide (m ≤ score) | none => true) &&
  (match c.lte with | some mx => decide (score ≤ mx) | none => true)

/-- Mongo's evaluation of the history filter object against one scan
document: all present conditions must hold (conjunctive semantics). -/
def matchesFilter (f : MongoFilter) (s : Scan) : Bool :=
  s.userId == f.userId &&
  (match f.freshness with | some x => s.freshness == x | none => true) &&
  (match f.qualityScore with | some c => scoreCondHolds c s.qualityScore | none => true)

/-- The full filtered set of `GET /history` before sort/skip/limit:
`Scan.find(filters)` and `Scan.countDocuments(filters)` both range over
exactly these documents. -/
def filteredScans (st : ServerState) (uid : Nat) (q : HistoryQuery) : List Scan :=
  st.scans.filter (matchesFilter (buildFilters uid q))

/-- `.sort({ createdAt: -1 })` guarantees only this: the returned list is
ordered by `createdAt` descending.  (Pairwise with a non-strict `≥`, so
documents with equal `createdAt` may appear in any relative order.) -/
def sortedByCreatedDesc (l : List Scan) : Prop :=
  l.Pairwise (fun a b => b.createdAt ≤ a.createdAt)

instance (l : List Scan) : Decidable (sortedByCreatedDesc l) := by
  unfold sortedByCreatedDesc
  exact List.instDecidablePairwise l

/-- A list Mongo may return for one `Scan.find(filters).sort({createdAt:-1})`
query: some permutation of the filtered set that is ordered by `createdAt`
descending.  Nothing in the query pins down the order of ties, and two
separate queries (one per page) need not agree on it. -/
def validHistoryOrdering (st : ServerState) (uid : Nat) (q : HistoryQuery)
    (l : List Scan) : Prop :=
  l.Perm (filteredScans st uid q) ∧ sortedByCreatedDesc l

/-- `.skip((page-1)*limit).limit(limit)` applied to one query's ordering. -/
def pageSlice (l : List Scan) (page limit : Nat) : List Scan :=
  (l.drop ((page - 1) * limit)).take limit

/-- `pagination.pages = Math.ceil(total / limit)` of the history response. -/
def pagesCount (total limit : Nat) : Nat :=
  (total + limit - 1) / limit

/-- The allowed upload content types (`fileFilter` in `routes/scan.ts`). -/
def allowedTypes : List String :=
  ["image/jpeg", "image/png", "image/webp", "application/pdf"]

/-- The message of the `Error` that `fileFilter` rejects with. -/
def invalidFileTypeMsg : String :=
  "Invalid file type. Only JPEG, PNG, WebP images and PDF files are allowed."

/-- A thrown JS error as the global error middleware sees it: its `name`,
`message`, and optional `status` field (a plain `Error` has none). -/
structure ErrObj where
  name : String
  message : String
  status : Option Nat
deriving Repr, DecidableEq

/-- The global error-handling middleware of the server entry file:
`ValidationError` ⇒ 400, `JsonWebTokenError` ⇒ 401 `"Invalid token"`,
`TokenExpiredError` ⇒ 401 `"Token expired"`, otherwise
`err.status || 500` with `err.message`. -/
def globalErrorHandler (e : ErrObj) : Resp :=
  if e.name == "ValidationError" then
    ⟨400, false, some "Validation Error"⟩
  else if e.name == "JsonWebTokenError" then
    ⟨401, false, some "Invalid token"⟩
  else if e.name == "TokenExpiredError" then
    ⟨401, false, some "Token expired"⟩
  else
    ⟨e.status.getD 500, false, some e.message⟩

/-- The fields multer exposes about an accepted upload: the client's
original name, declared mimetype, size, and the generated on-disk name
(`scan-<timestamp>-<random><ext>`). -/
structure UploadFile where
  originalname : String
  mimetype : String
  size : Nat
  storedName : String
deriving Repr, DecidableEq

/-- Result of the (stubbed) analysis step, as spread into the new `Scan`
document by `POST /analyze`. -/
structure AnalysisResult where
  qualityScore : Int
  freshness : String
  nutritionalValue : String
  recommendations : List String
  warnings : List String
  analysisMetadata : AnalysisMetadata
deriving Repr, DecidableEq

/-- Where the `POST /analyze` handler body can throw after multer stored
the blob: nowhere (`ok`), inside `performFoodAnalysis`, or inside
`scan.save()`. -/
inductive AnalyzeStep where
  | ok
  | analysisThrows
  | saveThrows
deriving Repr, DecidableEq

/-- The scan document `POST /analyze` persists: request metadata plus the
spread analysis result (`filePath` is multer's generated file name). -/
def mkScan (newId uid : Nat) (file : UploadFile) (r : AnalysisResult)
    (analysisDate createdAt : Nat) : Scan :=
  { id := newId, userId := uid, fileName := file.originalname,
    fileType := file.mimetype, filePath := file.storedName,
    fileSize := file.size, analysisDate := analysisDate,
    qualityScore := r.qualityScore, freshness := r.freshness,
    nutritionalValue := r.nutritionalValue,
    recommendations := r.recommendations, warnings := r.warnings,
    analysisMetadata := r.analysisMetadata, createdAt := createdAt }

/-- The `POST /analyze` pipeline from multer onward.  `fileFilter` rejects
a mimetype outside `allowedTypes` with a plain `Error` before any byte is
written; that error skips the route handler and reaches the global error
middleware.  On acceptance multer writes the blob under `file.storedName`,
then the handler runs `performFoodAnalysis` and `scan.save()` (failure
points injected via `step`); a throw lands in the handler's `catch`, which
unlinks the uploaded file if it exists and — since neither throw carries
`code === 'LIMIT_FILE_SIZE'` — answers 500. -/
def analyzePipeline (st : ServerState) (uid newId : Nat) (file : UploadFile)
    (r : AnalysisResult) (analysisDate createdAt : Nat) (step : AnalyzeStep) :
    Resp × ServerState :=
  if file.mimetype ∈ allowedTypes then
    let st1 : ServerState := { st with blobs := file.storedName :: st.blobs }
    match step with
    | AnalyzeStep.ok =>
        (⟨200, true, some "File analyzed successfully"⟩,
          { st1 with scans := mkScan newId uid file r analysisDate createdAt :: st1.scans })
    | _ =>
        (⟨500, false, some "Internal server error during analysis"⟩,
          { st1 with blobs := st1.blobs.filter (fun b => b != file.storedName) })
  else
    (globalErrorHandler ⟨"Error", invalidFileTypeMsg, none⟩, st)

/-- The five canned recommendation strings of `performFoodAnalysis`. -/
def baseRecommendations : List String :=
  ["Store in refrigerator to maintain freshness",
   "Consume within 2-3 days for best quality",
   "Rich in vitamins and minerals",
   "Good source of dietary fiber",
   "Low in saturated fats"]

/-- The two canned warning strings of `performFoodAnalysis`. -/
def baseWarnings : List String :=
  ["Check for signs of spoilage before consumption",
   "May contain allergens - check ingredients"]

/-- `performFoodAnalysis` (`routes/scan.ts`), the randomized stub.  Each
`Math.random()` draw is passed explicitly as a rational in `[0,1)`:
`rScore` for the quality score, `rFresh`/`rNutri` for the category picks,
`rWarnGate`/`rWarnCount` for the warnings, `rConf` for the confidence.
The `.sort(() => 0.5 - Math.random())` shuffle only rearranges the five
recommendation strings, so it is passed as the already-shuffled list
`shuffledRecs` (a permutation of `baseRecommendations`). -/
def performFoodAnalysis (rScore rFresh rNutri rWarnGate rWarnCount rConf : ℚ)
    (shuffledRecs : List String) (processingTime : Nat) : AnalysisResult :=
  { qualityScore := ⌊rScore * 40⌋ + 60,
    freshness := ["Excellent", "Good", "Fair", "Poor"].getD (⌊rFresh * 4⌋).toNat "",
    nutritionalValue := ["High", "Medium", "Low"].getD (⌊rNutri * 3⌋).toNat "",
    recommendations := shuffledRecs.take 3,
    warnings :=
      if rWarnGate > 7/10 then baseWarnings.take ((⌊rWarnCount * 2⌋).toNat + 1) else [],
    analysisMetadata :=
      { processingTime := processingTime, modelVersion := "1.0.0",
        confidence := 7/10 + rConf * (3/10) } }

/-- The body of the `GET /history` 200 response: serialized page records
plus the pagination block. -/
structure HistoryResp where
  scans : List (List (String × String))
  page : Nat
  limit : Nat
  total : Nat
  pages : Nat
deriving Repr, DecidableEq

/-- `GET /history` (`routes/scan.ts`) given `ord`, the list Mongo returned
for this query's `find(filters).sort({createdAt:-1})` (any
`validHistoryOrdering`): apply `skip`/`limit`, serialize each record with
`.select('-filePath')`, and report `countDocuments` plus
`pages = ceil(total/limit)`. -/
def historyHandler (st : ServerState) (uid : Nat) (q : HistoryQuery)
    (ord : List Scan) (page limit : Nat) : HistoryResp :=
  { scans := (pageSlice ord page limit).map scanViewFields,
    page := page, limit := limit,
    total := (filteredScans st uid q).length,
    pages := pagesCount (filteredScans st uid q).length limit }

/-! Concrete sample data used by witnesses and counterexamples. -/

/-- Sample analysis metadata. -/
def sampleMetadata : AnalysisMetadata :=
  { processingTime := 120, modelVersion := "1.0.0", confidence := 1 }

/-- A sample scan record owned by user 2 with blob file `b1.jpg`. -/
def sampleScan : Scan :=
  { id := 1, userId := 2, fileName := "a.jpg", fileType := "image/jpeg",
    filePath := "b1.jpg", fileSize := 100, analysisDate := 5,
    qualityScore := 80, freshness := "Good", nutritionalValue := "High",
    recommendations := [], warnings := [], analysisMetadata := sampleMetadata,
    createdAt := 5 }

/-- A state holding `sampleScan` and its blob. -/
def stOwn : ServerState := { users := [], scans := [sampleScan], blobs := ["b1.jpg"] }

/-- A sample account with stored secret hash `"pw"`. -/
def sampleUser : User := { id := 1, name := "A", email := "a@x.com", password := "pw" }

/-- `sampleScan` reowned by user 1. -/
def ownedScan : Scan := { sampleScan with userId := 1 }

/-- A state with one account, one scan it owns, and that scan's blob. -/
def stAcct : ServerState :=
  { users := [sampleUser], scans := [ownedScan], blobs := ["b1.jpg"] }

/-- Two scans of user 1 with the same `createdAt` (a sort tie). -/
def tieScanA : Scan := { sampleScan with id := 1, userId := 1 }

/-- Second scan of the `createdAt` tie. -/
def tieScanB : Scan := { sampleScan with id := 2, userId := 1 }

/-- A state whose two records tie on `createdAt`. -/
def stTie : ServerState := { users := [], scans := [tieScanA, tieScanB], blobs := [] }

/-- The empty history query: no filter parameters supplied. -/
def qNone : HistoryQuery := { freshness := none, minScore := none, maxScore := none }

/-- A scan of user 1 with score 75 (inside the band [70,89]). -/
def midScan : Scan := { sampleScan with userId := 1, qualityScore := 75 }

/-- A state holding `midScan`. -/
def stMid : ServerState := { users := [], scans := [midScan], blobs := [] }

/-- A sample analysis result. -/
def sampleResult : AnalysisResult :=
  { qualityScore := 80, freshness := "Good", nutritionalValue := "High",
    recommendations := [], warnings := [], analysisMetadata := sampleMetadata }

/-- An upload declared as `text/plain` (not in the allowed enumeration). -/
def plainTextFile : UploadFile :=
  { originalname := "note.txt", mimetype := "text/plain", size := 10,
    storedName := "scan-9-9.txt" }

/-- An accepted JPEG upload. -/
def jpegFile : UploadFile :=
  { originalname := "a.jpg", mimetype := "image/jpeg", size := 100,
    storedName := "scan-9-9.jpg" }

/-! Helper lemmas (shared). -/

/-- Page `i+1` starts at offset `i * limit`. -/
theorem pageSlice_one_add (l : List Scan) (i limit : Nat) :
    pageSlice l (i + 1) limit = (l.drop (i * limit)).take limit := by
  unfold pageSlice
  simp

/-- Concatenating the first `k` pages of a fixed ordering yields its first
`k * limit` elements. -/
theorem pageSlice_flatten_take (l : List Scan) (limit : Nat) (k : Nat) :
    ((List.range k).map (fun i => pageSlice l (i + 1) limit)).flatten
      = l.take (k * limit) := by
  induction k with
  | zero => simp
  | succ n ih =>
    rw [List.range_succ, List.map_append, List.flatten_append, ih]
    simp only [List.map_cons, List.map_nil, List.flatten_cons, List.flatten_nil,
      List.append_nil, pageSlice_one_add]
    rw [Nat.succ_mul, List.take_add]

/-- `total ≤ ceil(total/limit) * limit` for positive `limit`. -/
theorem total_le_pagesCount_mul (total limit : Nat) (hl : 0 < limit) :
    total ≤ pagesCount total limit * limit := by
  unfold pagesCount
  have h2 : limit * ((total + limit - 1) / limit) + (total + limit - 1) % limit
      = total + limit - 1 := Nat.div_add_mod _ _
  have h1 : (total + limit - 1) % limit < limit := Nat.mod_lt _ hl
  have h3 : ((total + limit - 1) / limit) * limit
      = limit * ((total + limit - 1) / limit) := Nat.mul_comm _ _
  omega

/-- A lookup scoped to the wrong owner misses. -/
theorem findOneScan_eq_none (st : ServerState) (uid sid : Nat)
    (h : ∀ s ∈ st.scans, ¬ (s.id = sid ∧ s.userId = uid)) :
    findOneScan st uid sid = none := by
  unfold findOneScan
  apply List.find?_eq_none.mpr
  intro s hs
  simp only [Bool.and_eq_true, beq_iff_eq, not_and]
  intro h1 h2
  exact h s hs ⟨h1, h2⟩

/-- C1: for every caller `uid` and record id `sid`, if no scan record has
both that id and that owner — i.e. the record does not exist at all, or it
exists but belongs to a different owner — then `GET /:scanId` answers the
constant `404 {success:false, message:"Scan not found"}` with no data, and
`DELETE /:scanId` answers the identical `404` response and leaves the state
untouched (regardless of any injected failure).  Both outcomes are
constants, so the response cannot distinguish "exists but not yours" from
"does not exist", and a caller can never retrieve or delete another
account's record. -/
theorem scan_notFound_ownership_collapse (st : ServerState) (uid sid : Nat)
    (unlinkFails dbDeleteFails : Bool)
    (h : ∀ s ∈ st.scans, ¬ (s.id = sid ∧ s.userId = uid)) :
    getByIdHandler st uid sid = (⟨404, false, some "Scan not found"⟩, none) ∧
    deleteScanHandler st uid sid unlinkFails dbDeleteFails
      = (⟨404, false, some "Scan not found"⟩, st, []) := by
  have hf := findOneScan_eq_none st uid sid h
  constructor
  · unfold getByIdHandler
    rw [hf]
  · unfold deleteScanHandler
    rw [hf]

/-- Witness for C1: in `stOwn` the record with id 1 exists but belongs to
user 2; caller 1 gets the same `404` from both handlers. -/
theorem scan_notFound_ownership_collapse_witness :
    (∀ s ∈ stOwn.scans, ¬ (s.id = 1 ∧ s.userId = 1)) ∧
    getByIdHandler stOwn 1 1 = (⟨404, false, some "Scan not found"⟩, none) ∧
    deleteScanHandler stOwn 1 1 false false
      = (⟨404, false, some "Scan not found"⟩, stOwn, []) := by
  refine ⟨by decide, ?_, ?_⟩
  · exact (scan_notFound_ownership_collapse stOwn 1 1 false false (by decide)).1
  · exact (scan_notFound_ownership_collapse stOwn 1 1 false false (by decide)).2

/-- C2: no response path exposes the stored blob name as a field.  The
`analyze` response and the `-filePath`-projected view (used by `getById`
and by every `history` item) contain no `filePath` key; the only
file-location field is `fileUrl`, the derived access path, which differs
from the raw blob name; and the `getById` and `history` payloads are
exactly these projected serializations. -/
theorem responses_hide_blob_name (st : ServerState) (uid sid page limit : Nat)
    (q : HistoryQuery) (ord : List Scan) (s : Scan) :
    "filePath" ∉ (analyzeRespFields s).map Prod.fst ∧
    "filePath" ∉ (scanViewFields s).map Prod.fst ∧
    (analyzeRespFields s).lookup "fileUrl" = some (fileUrl s) ∧
    fileUrl s ≠ s.filePath ∧
    (scanViewFields s).lookup "fileUrl" = some "/uploads/undefined" ∧
    (getByIdHandler st uid sid).2 = Option.map scanViewFields (findOneScan st uid sid) ∧
    (historyHandler st uid q ord page limit).scans
      = (pageSlice ord page limit).map scanViewFields := by
  refine ⟨by simp [analyzeRespFields], by simp [scanViewFields], rfl, ?_, rfl, ?_, rfl⟩
  · intro hcontra
    have hlen := congrArg String.length hcontra
    rw [fileUrl, String.length_append] at hlen
    simp at hlen
    exact absurd hlen (by decide)
  · unfold getByIdHandler
    cases findOneScan st uid sid <;> rfl

/-- Witness for C2 at `sampleScan`: its analyze response keeps the blob
name out of every key and exposes only `/uploads/b1.jpg`. -/
theorem responses_hide_blob_name_witness :
    "filePath" ∉ (analyzeRespFields sampleScan).map Prod.fst ∧
    (analyzeRespFields sampleScan).lookup "fileUrl" = some (fileUrl sampleScan) ∧
    fileUrl sampleScan ≠ sampleScan.filePath := by
  refine ⟨?_, ?_, ?_⟩
  · exact (responses_hide_blob_name stOwn 2 1 1 10 qNone [] sampleScan).1
  · exact (responses_hide_blob_name stOwn 2 1 1 10 qNone [] sampleScan).2.2.1
  · exact (responses_hide_blob_name stOwn 2 1 1 10 qNone [] sampleScan).2.2.2.1

/-- C3 counterexample: in `stAcct`, user 1 owns the scan whose blob is
`b1.jpg`; account deletion with the correct secret reports success and
removes the record, yet the owned blob `b1.jpg` is still in the blob
store afterwards — the cascade does not delete blobs. -/
theorem account_deletion_leaves_blob_counterexample :
    ownedScan ∈ stAcct.scans ∧ ownedScan.userId = 1 ∧
    ownedScan.filePath ∈ stAcct.blobs ∧
    (deleteAccountHandler stAcct 1 (some "pw")).1
      = ⟨200, true, some "Account deleted successfully"⟩ ∧
    ownedScan.filePath ∈ ((deleteAccountHandler stAcct 1 (some "pw")).2).blobs := by
  refine ⟨by decide, by decide, by decide, rfl, by decide⟩

/-- C3 (amended): successful account deletion (after the supplied secret
re-verifies) deletes every scan record owned by the account and the
account itself, but it does not touch the blob store: the blobs of the
deleted records remain, orphaned. -/
theorem account_deletion_cascade_records_only (st : ServerState) (uid : Nat)
    (pw : String) (user : User)
    (hu : st.users.find? (fun u => u.id == uid) = some user)
    (hpw : user.password = pw) :
    (deleteAccountHandler st uid (some pw)).1
      = ⟨200, true, some "Account deleted successfully"⟩ ∧
    (∀ s ∈ ((deleteAccountHandler st uid (some pw)).2).scans, s.userId ≠ uid) ∧
    ((deleteAccountHandler st uid (some pw)).2).users.find? (fun u => u.id == uid)
      = none ∧
    ((deleteAccountHandler st uid (some pw)).2).blobs = st.blobs := by
  have hbeq : (user.password == pw) = true := by simp [hpw]
  have hred : deleteAccountHandler st uid (some pw)
      = (⟨200, true, some "Account deleted successfully"⟩,
         { st with
             scans := st.scans.filter (fun s => s.userId != uid),
             users := st.users.filter (fun u => u.id != uid) }) := by
    simp only [deleteAccountHandler, hu, hbeq, if_true]
  rw [hred]
  refine ⟨rfl, ?_, ?_, rfl⟩
  · intro s hs
    have hmem := List.mem_filter.mp hs
    simpa using hmem.2
  · apply List.find?_eq_none.mpr
    intro u hu2
    have hmem := List.mem_filter.mp hu2
    simp only [bne_iff_ne, ne_eq] at hmem
    simp only [beq_iff_eq]
    exact hmem.2

/-- Witness for C3 (amended) at `stAcct`: deleting user 1's account with
secret `"pw"` succeeds, leaves no record of user 1, removes the account,
and leaves the blob store exactly as it was. -/
theorem account_deletion_cascade_records_only_witness :
    (deleteAccountHandler stAcct 1 (some "pw")).1
      = ⟨200, true, some "Account deleted successfully"⟩ ∧
    (∀ s ∈ ((deleteAccountHandler stAcct 1 (some "pw")).2).scans, s.userId ≠ 1) ∧
    ((deleteAccountHandler stAcct 1 (some "pw")).2).users.find? (fun u => u.id == 1)
      = none ∧
    ((deleteAccountHandler stAcct 1 (some "pw")).2).blobs = stAcct.blobs :=
  account_deletion_cascade_records_only stAcct 1 "pw" sampleUser (by decide) rfl

/-- C4 counterexample: for user 2's record in `stOwn` (blob present), the
successful delete's completed-effect trace is
`[unlink b1.jpg, deleteRecord 1]` — the blob deletion comes first, not the
record deletion — and when the blob unlink fails the handler answers
`500` (not success) with the record still present, instead of reporting
success over a non-fatal blob inconsistency. -/
theorem delete_order_counterexample :
    (deleteScanHandler stOwn 2 1 false false).2.2
      = [Eff.unlinkBlob "b1.jpg", Eff.deleteRecord 1] ∧
    (deleteScanHandler stOwn 2 1 false false).2.2.head?
      ≠ some (Eff.deleteRecord 1) ∧
    (deleteScanHandler stOwn 2 1 true false).1
      = ⟨500, false, some "Internal server error while deleting scan"⟩ ∧
    (deleteScanHandler stOwn 2 1 true false).1.success = false ∧
    sampleScan ∈ ((deleteScanHandler stOwn 2 1 true false).2.1).scans := by
  refine ⟨rfl, by decide, rfl, rfl, by decide⟩

/-- C4 (amended): scan-record deletion is performed as blob first (when
the blob file exists), then record: on success the completed effects are
`[unlink blob, delete record]` with a `200` success response, while a
failed blob unlink aborts the operation with `500` and leaves the state —
in particular the record — untouched, rather than reporting success. -/
theorem delete_sequence_blob_then_record (st : ServerState) (uid sid : Nat)
    (scan : Scan)
    (hfind : findOneScan st uid sid = some scan)
    (hblob : scan.filePath ∈ st.blobs) :
    (deleteScanHandler st uid sid false false).2.2
      = [Eff.unlinkBlob scan.filePath, Eff.deleteRecord scan.id] ∧
    (deleteScanHandler st uid sid false false).1
      = ⟨200, true, some "Scan deleted successfully"⟩ ∧
    (deleteScanHandler st uid sid true false).1
      = ⟨500, false, some "Internal server error while deleting scan"⟩ ∧
    (deleteScanHandler st uid sid true false).2.1 = st := by
  refine ⟨?_, ?_, ?_, ?_⟩ <;> simp [deleteScanHandler, hfind, hblob]

/-- Witness for C4 (amended) at `stOwn` / user 2 / record 1. -/
theorem delete_sequence_blob_then_record_witness :
    (deleteScanHandler stOwn 2 1 false false).2.2
      = [Eff.unlinkBlob sampleScan.filePath, Eff.deleteRecord sampleScan.id] ∧
    (deleteScanHandler stOwn 2 1 false false).1
      = ⟨200, true, some "Scan deleted successfully"⟩ ∧
    (deleteScanHandler stOwn 2 1 true false).1
      = ⟨500, false, some "Internal server error while deleting scan"⟩ ∧
    (deleteScanHandler stOwn 2 1 true false).2.1 = stOwn :=
  delete_sequence_blob_then_record stOwn 2 1 sampleScan (by decide) (by decide)

/-- After filtering out every record with the deleted record's id, the
ownership-scoped lookup for that id misses. -/
theorem find_after_erase_eq_none (l : List Scan) (uid sid rid : Nat)
    (hr : rid = sid) :
    (l.filter (fun s => s.id != rid)).find?
      (fun s => s.id == sid && s.userId == uid) = none := by
  apply List.find?_eq_none.mpr
  intro s hs
  have hmem := List.mem_filter.mp hs
  simp only [bne_iff_ne, ne_eq] at hmem
  simp only [Bool.and_eq_true, beq_iff_eq, not_and]
  intro h1 _
  exact hmem.2 (h1.trans hr.symm)

/-- C5: for every owned scan record (the ownership-scoped lookup finds
it), a failure-free delete reports success, a subsequent `GET /:scanId`
for the same id answers `404 "Scan not found"`, and the record's blob
name is no longer in the blob store. -/
theorem delete_then_lookup_notFound (st : ServerState) (uid sid : Nat)
    (scan : Scan) (hfind : findOneScan st uid sid = some scan) :
    (deleteScanHandler st uid sid false false).1
      = ⟨200, true, some "Scan deleted successfully"⟩ ∧
    (getByIdHandler ((deleteScanHandler st uid sid false false).2.1) uid sid).1
      = ⟨404, false, some "Scan not found"⟩ ∧
    scan.filePath ∉ ((deleteScanHandler st uid sid false false).2.1).blobs := by
  have hfind' : st.scans.find? (fun s => s.id == sid && s.userId == uid) = some scan := hfind
  have hp := List.find?_some hfind'
  simp only [Bool.and_eq_true, beq_iff_eq] at hp
  have hsid : scan.id = sid := hp.1
  by_cases hb : scan.filePath ∈ st.blobs
  · have hred : deleteScanHandler st uid sid false false
        = (⟨200, true, some "Scan deleted successfully"⟩,
           { st with
               blobs := st.blobs.filter (fun b => b != scan.filePath),
               scans := st.scans.filter (fun s => s.id != scan.id) },
           [Eff.unlinkBlob scan.filePath, Eff.deleteRecord scan.id]) := by
      simp [deleteScanHandler, hfind, hb]
    rw [hred]
    refine ⟨rfl, ?_, ?_⟩
    · unfold getByIdHandler findOneScan
      rw [show ({ st with
            blobs := st.blobs.filter (fun b => b != scan.filePath),
            scans := st.scans.filter (fun s => s.id != scan.id) } : ServerState).scans
          = st.scans.filter (fun s => s.id != scan.id) from rfl]
      rw [find_after_erase_eq_none st.scans uid sid scan.id hsid]
    · intro hmem
      have h2 := List.mem_filter.mp hmem
      simp at h2
  · have hred : deleteScanHandler st uid sid false false
        = (⟨200, true, some "Scan deleted successfully"⟩,
           { st with scans := st.scans.filter (fun s => s.id != scan.id) },
           [Eff.deleteRecord scan.id]) := by
      simp [deleteScanHandler, hfind, hb]
    rw [hred]
    refine ⟨rfl, ?_, ?_⟩
    · unfold getByIdHandler findOneScan
      rw [show ({ st with scans := st.scans.filter (fun s => s.id != scan.id) }
            : ServerState).scans = st.scans.filter (fun s => s.id != scan.id) from rfl]
      rw [find_after_erase_eq_none st.scans uid sid scan.id hsid]
    · exact hb

/-- Witness for C5 at `stOwn` / user 2 / record 1. -/
theorem delete_then_lookup_notFound_witness :
    (deleteScanHandler stOwn 2 1 false false).1
      = ⟨200, true, some "Scan deleted successfully"⟩ ∧
    (getByIdHandler ((deleteScanHandler stOwn 2 1 false false).2.1) 2 1).1
      = ⟨404, false, some "Scan not found"⟩ ∧
    sampleScan.filePath ∉ ((deleteScanHandler stOwn 2 1 false false).2.1).blobs :=
  delete_then_lookup_notFound stOwn 2 1 sampleScan (by decide)

/-- C6 counterexample: `tieScanA` and `tieScanB` tie on `createdAt`, so
both `[A,B]` and `[B,A]` are orderings Mongo may return for
`.sort({createdAt:-1})` — the query has no secondary tie-break key.  With
`limit = 1` there are 2 pages; if the page-1 query sees `[A,B]` and the
page-2 query sees `[B,A]`, the concatenation of all pages is `[A,A]`:
record A appears twice and record B never, so pagination is not complete,
not non-overlapping, and not deterministic across pages. -/
theorem history_pagination_tie_counterexample :
    validHistoryOrdering stTie 1 qNone [tieScanA, tieScanB] ∧
    validHistoryOrdering stTie 1 qNone [tieScanB, tieScanA] ∧
    pagesCount (filteredScans stTie 1 qNone).length 1 = 2 ∧
    pageSlice [tieScanA, tieScanB] 1 1 ++ pageSlice [tieScanB, tieScanA] 2 1
      = [tieScanA, tieScanA] ∧
    ¬ ([tieScanA, tieScanA].Perm (filteredScans stTie 1 qNone)) := by
  exact ⟨⟨by decide, by decide⟩, ⟨by decide, by decide⟩, by decide, by decide, by decide⟩

/-- C6 (amended): the code sorts only by `createdAt` descending with no
secondary tie-break, so cross-page determinism holds only when every page
query observes the same ordering.  Under that proviso pagination is
complete and non-overlapping: for any ordering `ord` valid for the query
(a permutation of the filtered set, ordered newest-first) and any positive
`limit`, concatenating pages `1..pages` of `ord` reproduces `ord` — hence
the full filtered set exactly once per record, newest-first by creation
time. -/
theorem history_pagination_complete (st : ServerState) (uid : Nat)
    (q : HistoryQuery) (ord : List Scan) (limit : Nat)
    (hord : validHistoryOrdering st uid q ord) (hl : 0 < limit) :
    ((List.range (pagesCount (filteredScans st uid q).length limit)).map
        (fun i => pageSlice ord (i + 1) limit)).flatten = ord ∧
    ord.Perm (filteredScans st uid q) ∧
    sortedByCreatedDesc ord := by
  obtain ⟨hperm, hsort⟩ := hord
  refine ⟨?_, hperm, hsort⟩
  rw [pageSlice_flatten_take]
  apply List.take_of_length_le
  rw [← hperm.length_eq]
  exact total_le_pagesCount_mul _ _ hl

/-- Witness for C6 (amended) at `stTie` with the fixed ordering `[A,B]`
and `limit = 1`: the two pages concatenate back to `[A,B]`. -/
theorem history_pagination_complete_witness :
    ((List.range (pagesCount (filteredScans stTie 1 qNone).length 1)).map
        (fun i => pageSlice [tieScanA, tieScanB] (i + 1) 1)).flatten
      = [tieScanA, tieScanB] ∧
    List.Perm [tieScanA, tieScanB] (filteredScans stTie 1 qNone) ∧
    sortedByCreatedDesc [tieScanA, tieScanB] :=
  history_pagination_complete stTie 1 qNone [tieScanA, tieScanB] 1
    ⟨by decide, by decide⟩ (by decide)

/-- C7: the history filters combine conjunctively.  With `minScore=70`
and `maxScore=89` the filtered set is exactly the caller's records with
score in the inclusive range `[70,89]` (the `$lte` spread keeps the
`$gte` bound, so both bounds act as a single range); adding
`freshness=Good` further intersects with the records whose freshness
equals `Good`. -/
theorem history_filter_conjunction (st : ServerState) (uid : Nat) (s : Scan) :
    (s ∈ filteredScans st uid { freshness := none, minScore := some 70, maxScore := some 89 } ↔
      s ∈ st.scans ∧ s.userId = uid ∧ 70 ≤ s.qualityScore ∧ s.qualityScore ≤ 89) ∧
    (s ∈ filteredScans st uid
        { freshness := some "Good", minScore := some 70, maxScore := some 89 } ↔
      s ∈ st.scans ∧ s.userId = uid ∧ 70 ≤ s.qualityScore ∧ s.qualityScore ≤ 89 ∧
        s.freshness = "Good") := by
  constructor <;>
  · rw [filteredScans, List.mem_filter]
    simp only [matchesFilter, buildFilters, scoreCondHolds, Bool.and_eq_true,
      beq_iff_eq, decide_eq_true_eq]
    tauto

/-- Witness for C7: `midScan` (score 75, freshness Good, owner 1) is in
both filtered sets of `stMid`. -/
theorem history_filter_conjunction_witness :
    midScan ∈ filteredScans stMid 1
      { freshness := none, minScore := some 70, maxScore := some 89 } ∧
    midScan ∈ filteredScans stMid 1
      { freshness := some "Good", minScore := some 70, maxScore := some 89 } := by
  constructor
  · exact (history_filter_conjunction stMid 1 midScan).1.mpr
      ⟨by decide, by decide, by decide, by decide⟩
  · exact (history_filter_conjunction stMid 1 midScan).2.mpr
      ⟨by decide, by decide, by decide, by decide, by decide⟩

/-- C8 counterexample: an upload declared `text/plain` is rejected by
`fileFilter` with a plain `Error`, which skips the route handler and
reaches the global error middleware; a plain `Error` has no `status`
field, so `err.status || 500` answers **500**, not the claimed `400`.
(No blob is persisted — the state is unchanged — so that half of the
claim holds.) -/
theorem unsupported_type_status_counterexample :
    plainTextFile.mimetype ∉ allowedTypes ∧
    (analyzePipeline stOwn 2 9 plainTextFile sampleResult 0 0 AnalyzeStep.ok).1
      = ⟨500, false, some invalidFileTypeMsg⟩ ∧
    (analyzePipeline stOwn 2 9 plainTextFile sampleResult 0 0 AnalyzeStep.ok).1.status
      ≠ 400 ∧
    (analyzePipeline stOwn 2 9 plainTextFile sampleResult 0 0 AnalyzeStep.ok).2
      = stOwn := by
  exact ⟨by decide, rfl, by decide, rfl⟩

/-- C8 (amended): for every upload whose declared content type is not in
the allowed enumeration, the analyze pipeline fails with a **500**
response carrying the `fileFilter` error message (the rejection error has
no `status` field, and the global error handler defaults to 500), and no
blob is persisted: the server state is unchanged. -/
theorem unsupported_type_rejected (st : ServerState) (uid newId : Nat)
    (file : UploadFile) (r : AnalysisResult) (analysisDate createdAt : Nat)
    (step : AnalyzeStep) (h : file.mimetype ∉ allowedTypes) :
    (analyzePipeline st uid newId file r analysisDate createdAt step).1
      = ⟨500, false, some invalidFileTypeMsg⟩ ∧
    (analyzePipeline st uid newId file r analysisDate createdAt step).2 = st := by
  unfold analyzePipeline
  rw [if_neg h]
  exact ⟨rfl, rfl⟩

/-- Witness for C8 (amended) at `plainTextFile`. -/
theorem unsupported_type_rejected_witness :
    (analyzePipeline stOwn 2 9 plainTextFile sampleResult 0 0 AnalyzeStep.ok).1
      = ⟨500, false, some invalidFileTypeMsg⟩ ∧
    (analyzePipeline stOwn 2 9 plainTextFile sampleResult 0 0 AnalyzeStep.ok).2
      = stOwn :=
  unsupported_type_rejected stOwn 2 9 plainTextFile sampleResult 0 0
    AnalyzeStep.ok (by decide)

/-- C9: for every accepted upload (blob stored by multer under a fresh
generated name) whose analysis or record persist then throws, the analyze
endpoint answers 500, the stored blob is cleaned up — the blob store is
exactly as before the upload, so no orphaned blob remains — and no scan
record is created. -/
theorem analyze_failure_cleanup (st : ServerState) (uid newId : Nat)
    (file : UploadFile) (r : AnalysisResult) (analysisDate createdAt : Nat)
    (step : AnalyzeStep) (hmime : file.mimetype ∈ allowedTypes)
    (hstep : step ≠ AnalyzeStep.ok) (hfresh : file.storedName ∉ st.blobs) :
    (analyzePipeline st uid newId file r analysisDate createdAt step).1.status = 500 ∧
    (analyzePipeline st uid newId file r analysisDate createdAt step).2.scans
      = st.scans ∧
    file.storedName ∉ (analyzePipeline st uid newId file r analysisDate createdAt step).2.blobs ∧
    (analyzePipeline st uid newId file r analysisDate createdAt step).2.blobs
      = st.blobs := by
  have hkeep : st.blobs.filter (fun b => b != file.storedName) = st.blobs := by
    apply List.filter_eq_self.mpr
    intro b hb
    simp only [bne_iff_ne, ne_eq]
    intro hcontra
    exact hfresh (hcontra ▸ hb)
  have hred : analyzePipeline st uid newId file r analysisDate createdAt step
      = (⟨500, false, some "Internal server error during analysis"⟩,
         { st with
             blobs := List.filter (fun b => b != file.storedName)
               (file.storedName :: st.blobs) }) := by
    unfold analyzePipeline
    rw [if_pos hmime]
    cases step with
    | ok => exact absurd rfl hstep
    | analysisThrows => rfl
    | saveThrows => rfl
  rw [hred]
  have hblobs : (file.storedName :: st.blobs).filter (fun b => b != file.storedName)
      = st.blobs := by
    rw [List.filter_cons]
    simp only [bne_self_eq_false, Bool.false_eq_true, if_false]
    exact hkeep
  refine ⟨rfl, rfl, ?_, ?_⟩
  · show file.storedName ∉ (file.storedName :: st.blobs).filter (fun b => b != file.storedName)
    rw [hblobs]
    exact hfresh
  · exact hblobs

/-- Witness for C9 at `jpegFile` over `stOwn` with a failing save step. -/
theorem analyze_failure_cleanup_witness :
    (analyzePipeline stOwn 2 9 jpegFile sampleResult 0 0 AnalyzeStep.saveThrows).1.status
      = 500 ∧
    (analyzePipeline stOwn 2 9 jpegFile sampleResult 0 0 AnalyzeStep.saveThrows).2.scans
      = stOwn.scans ∧
    jpegFile.storedName ∉
      (analyzePipeline stOwn 2 9 jpegFile sampleResult 0 0 AnalyzeStep.saveThrows).2.blobs ∧
    (analyzePipeline stOwn 2 9 jpegFile sampleResult 0 0 AnalyzeStep.saveThrows).2.blobs
      = stOwn.blobs :=
  analyze_failure_cleanup stOwn 2 9 jpegFile sampleResult 0 0
    AnalyzeStep.saveThrows (by decide) (by decide) (by decide)

/-- C10: for every successful analyze call — i.e. for all `Math.random()`
draws in `[0,1)` and any shuffle of the recommendation pool — the
generated result's quality score lies in `[60,100]` (in fact `[60,99]`,
never below 60), its confidence lies in `[0.7,1.0]`, its recommendations
list has exactly 3 entries, and its warnings list has at most 2 entries. -/
theorem analysis_stub_ranges (rScore rFresh rNutri rWarnGate rWarnCount rConf : ℚ)
    (shuffledRecs : List String) (pt : Nat)
    (hs0 : 0 ≤ rScore) (hs1 : rScore < 1)
    (hg0 : 0 ≤ rWarnGate) (hg1 : rWarnGate < 1)
    (hw0 : 0 ≤ rWarnCount) (hw1 : rWarnCount < 1)
    (hc0 : 0 ≤ rConf) (hc1 : rConf < 1)
    (hrec : shuffledRecs.Perm baseRecommendations) :
    60 ≤ (performFoodAnalysis rScore rFresh rNutri rWarnGate rWarnCount rConf
      shuffledRecs pt).qualityScore ∧
    (performFoodAnalysis rScore rFresh rNutri rWarnGate rWarnCount rConf
      shuffledRecs pt).qualityScore ≤ 100 ∧
    7/10 ≤ (performFoodAnalysis rScore rFresh rNutri rWarnGate rWarnCount rConf
      shuffledRecs pt).analysisMetadata.confidence ∧
    (performFoodAnalysis rScore rFresh rNutri rWarnGate rWarnCount rConf
      shuffledRecs pt).analysisMetadata.confidence ≤ 1 ∧
    (performFoodAnalysis rScore rFresh rNutri rWarnGate rWarnCount rConf
      shuffledRecs pt).recommendations.length = 3 ∧
    (performFoodAnalysis rScore rFresh rNutri rWarnGate rWarnCount rConf
      shuffledRecs pt).warnings.length ≤ 2 := by
  have hfl0 : (0:ℤ) ≤ ⌊rScore * 40⌋ := Int.floor_nonneg.mpr (by nlinarith)
  have hfl1 : ⌊rScore * 40⌋ < 40 := by
    apply Int.floor_lt.mpr
    push_cast
    nlinarith
  have hq : (performFoodAnalysis rScore rFresh rNutri rWarnGate rWarnCount rConf
      shuffledRecs pt).qualityScore = ⌊rScore * 40⌋ + 60 := rfl
  have hcf : (performFoodAnalysis rScore rFresh rNutri rWarnGate rWarnCount rConf
      shuffledRecs pt).analysisMetadata.confidence = 7/10 + rConf * (3/10) := rfl
  have hrc : (performFoodAnalysis rScore rFresh rNutri rWarnGate rWarnCount rConf
      shuffledRecs pt).recommendations = shuffledRecs.take 3 := rfl
  have hwn : (performFoodAnalysis rScore rFresh rNutri rWarnGate rWarnCount rConf
      shuffledRecs pt).warnings
      = (if rWarnGate > 7/10 then baseWarnings.take ((⌊rWarnCount * 2⌋).toNat + 1)
         else []) := rfl
  rw [hq, hcf, hrc, hwn]
  refine ⟨by omega, by omega, by nlinarith, by nlinarith, ?_, ?_⟩
  · rw [List.length_take, hrec.length_eq]
    decide
  · by_cases hw : rWarnGate > 7/10
    · rw [if_pos hw, List.length_take]
      exact Nat.le_trans (Nat.min_le_right _ _) (by decide)
    · rw [if_neg hw]
      decide

/-- Witness for C10 at all-zero draws and the identity shuffle: the score
is 60, the confidence 7/10, 3 recommendations and no warnings. -/
theorem analysis_stub_ranges_witness :
    60 ≤ (performFoodAnalysis 0 0 0 0 0 0 baseRecommendations 100).qualityScore ∧
    (performFoodAnalysis 0 0 0 0 0 0 baseRecommendations 100).qualityScore ≤ 100 ∧
    7/10 ≤ (performFoodAnalysis 0 0 0 0 0 0 baseRecommendations 100).analysisMetadata.confidence ∧
    (performFoodAnalysis 0 0 0 0 0 0 baseRecommendations 100).analysisMetadata.confidence ≤ 1 ∧
    (performFoodAnalysis 0 0 0 0 0 0 baseRecommendations 100).recommendations.length = 3 ∧
    (performFoodAnalysis 0 0 0 0 0 0 baseRecommendations 100).warnings.length ≤ 2 := by
  exact analysis_stub_ranges 0 0 0 0 0 0 baseRecommendations 100
    (by norm_num) (by norm_num) (by norm_num) (by norm_num) (by norm_num)
    (by norm_num) (by norm_num) (by norm_num) (List.Perm.refl _)
